import Mathlib

/-!
Shallow embedding of `src/tournament-creator-simple.ts` (the tournament
creation script) and verification of its specified properties.

The script is a single linear pipeline: read a persisted day counter,
generate 4 tournament descriptors (Day/Night slots for the next two
calendar days), submit each one to the remote arena API (or simulate in
dry-run mode), and persist the updated counter when at least one
submission succeeded.

Modelling conventions:
* JavaScript strings are Lean `String`s; `String.prototype.includes` and
  `String.prototype.trim` are modelled by the structurally recursive
  char-list functions `includesSubstr` and `strTrim` below.
* `Date` arithmetic: the script only ever constructs
  `new Date(year, month-1, day + offset)` with `offset ∈ {0, 1}` from a
  valid current date, so JS date normalization is modelled by `normDay`,
  which carries an overflowing day into the next month (and December into
  January of the next year) — exactly the behavior on that input range.
* `Date.UTC(y, m-1, d, h, min, 0, 0).toISOString()` is modelled by
  `createTournamentDate` as direct string formatting; this is the
  ISO output for the in-range, already-normalized arguments the script
  passes (years 100..9999, valid month/day, hour/minute below 24/60).
* Network I/O is modelled by a `CallOutcome` value: either `noNet r`
  (the function returns `r` without any network request) or
  `net req handle` (the function issues `req` and maps the response —
  or a thrown network error — through `handle`). The driver composes a
  call outcome with an ambient network function `Net`.
* The state file write is modelled by the `stateWritten` field of
  `MainResult` (`some v` iff `fs.writeFileSync` runs, writing counter
  value `v`); a write that throws is modelled by the `writeThrows` flag.
* `process.exit` codes are the `exitCode` field (a run that falls off the
  end of `main` exits 0).
-/

namespace BattleMaker

/-- Tournament slot type, from the Day-or-Night string union in the source. -/
inductive TType where
  | Day
  | Night
deriving DecidableEq, Repr

/-- A UTC calendar date (year, month 1..12, day 1..31). -/
structure CalDate where
  year : Nat
  month : Nat
  day : Nat
deriving DecidableEq, Repr

/-- Gregorian leap-year rule, as used by JS `Date`. -/
def isLeapYear (y : Nat) : Bool :=
  (y % 4 == 0 && y % 100 != 0) || y % 400 == 0

/-- Number of days in a month, as used by JS `Date` normalization. -/
def daysInMonth (y m : Nat) : Nat :=
  if m = 2 then (if isLeapYear y then 29 else 28)
  else if m = 4 ∨ m = 6 ∨ m = 9 ∨ m = 11 then 30
  else 31

/-- JS `new Date(y, m-1, d)` day normalization (source line 161), restricted
to the range the script uses: `d` is a valid day of the month plus at most 1,
so at most one carry into the following month (or year) can occur. -/
def normDay (y m d : Nat) : CalDate :=
  if d > daysInMonth y m then
    if m = 12 then ⟨y + 1, 1, d - daysInMonth y m⟩
    else ⟨y, m + 1, d - daysInMonth y m⟩
  else ⟨y, m, d⟩

/-- Function `pad2` from the source: zero-pad a number to two digits. -/
def pad2 (n : Nat) : String :=
  if n < 10 then "0" ++ toString n else toString n

/-- Zero-pad a year to four digits, as `toISOString` renders years 0..9999.
The model is used for years 100..9999 (below 100 the legacy two-digit-year
mapping of `Date.UTC` would interfere; the script only handles current dates). -/
def pad4 (n : Nat) : String :=
  if n < 10 then "000" ++ toString n
  else if n < 100 then "00" ++ toString n
  else if n < 1000 then "0" ++ toString n
  else toString n

/-- The `YYYY-MM-DD` date part of an ISO-8601 timestamp. -/
def dateStr (d : CalDate) : String :=
  pad4 d.year ++ "-" ++ pad2 d.month ++ "-" ++ pad2 d.day

/-- Model of `createTournamentDate` from the source:
`new Date(Date.UTC(year, month-1, day, hour, minute, 0, 0)).toISOString()`,
modelled as ISO-8601 formatting of the given in-range UTC components. -/
def createTournamentDate (year month day hour minute : Nat) : String :=
  dateStr ⟨year, month, day⟩ ++ "T" ++ pad2 hour ++ ":" ++ pad2 minute ++ ":00.000Z"

/-- Render a slot type the way the source template literals do. -/
def typeName : TType → String
  | TType.Day => "Day"
  | TType.Night => "Night"

/-- Model of `buildTournamentName` from the source: the name template
`LMAO {type} {dayNum} Team Battle` with the day number in single quotes. -/
def buildTournamentName (dayNum : Int) (t : TType) : String :=
  "LMAO " ++ typeName t ++ " \x27" ++ toString dayNum ++ "\x27 Team Battle"

/-- Model of `buildDescription` from the source. -/
def buildDescription (dayNum : Int) (t : TType) : String :=
  "Welcome to the LMAO " ++ typeName t ++ " \x27" ++ toString dayNum ++
    "\x27 Team Battle! Have fun and fair play!"

/-- A generated tournament descriptor (the objects pushed onto `tournaments`
in `main`, source lines 167-182). -/
structure Descriptor where
  name : String
  description : String
  startDateISO : String
  dayNum : Int
  type : TType
deriving DecidableEq, Repr

/-- The schedule-generation loop of `main` (source lines 157-183): for day
offsets 0 and 1, emit a Day descriptor (06:58 UTC) then a Night descriptor
(18:58 UTC) for calendar date `today + offset`, numbered `nextDayNum + offset`. -/
def generateTournaments (today : CalDate) (nextDayNum : Int) : List Descriptor :=
  (List.range 2).flatMap (fun dayOffset =>
    let tournamentDayNum : Int := nextDayNum + dayOffset
    let target := normDay today.year today.month (today.day + dayOffset)
    [ { name := buildTournamentName tournamentDayNum TType.Day,
        description := buildDescription tournamentDayNum TType.Day,
        startDateISO := createTournamentDate target.year target.month target.day 6 58,
        dayNum := tournamentDayNum,
        type := TType.Day },
      { name := buildTournamentName tournamentDayNum TType.Night,
        description := buildDescription tournamentDayNum TType.Night,
        startDateISO := createTournamentDate target.year target.month target.day 18 58,
        dayNum := tournamentDayNum,
        type := TType.Night } ])

/-- Does `pat` begin the character list `cs`? (Helper for `includesSubstr`.) -/
def beginsWith : List Char → List Char → Bool
  | [], _ => true
  | _ :: _, [] => false
  | p :: ps, c :: cs => p == c && beginsWith ps cs

/-- Does `pat` occur as a contiguous run anywhere in the list? -/
def hasSub (pat : List Char) : List Char → Bool
  | [] => beginsWith pat []
  | c :: cs => beginsWith pat (c :: cs) || hasSub pat cs

/-- Model of JS `s.includes(pat)`: substring occurrence test. -/
def includesSubstr (s pat : String) : Bool :=
  hasSub pat.data s.data

/-- JS whitespace characters relevant to `String.prototype.trim` here. -/
def isSpaceChar (c : Char) : Bool :=
  c == ' ' || c == '\t' || c == '\n' || c == '\r'

/-- Model of JS `s.trim()`: strip leading and trailing whitespace. -/
def strTrim (s : String) : String :=
  ⟨((s.data.dropWhile isSpaceChar).reverse.dropWhile isSpaceChar).reverse⟩

/-- The token validity check of `createTeamBattle` (source line 61):
`!token || token.trim() === "" || token.includes("***") || token.includes("YOUR_TOKEN")`.
(`!token` on a string is true exactly for the empty string.) -/
def invalidToken (token : String) : Bool :=
  token == "" || strTrim token == "" ||
    includesSubstr token "***" || includesSubstr token "YOUR_TOKEN"

/-- The error message returned for an invalid token (source line 62). -/
def authErrorMsg : String :=
  "Invalid or missing OAuth token. Please set a valid OAUTH_TOKEN environment variable."

/-- The invited-teams list (source line 77):
`params.teams.filter((t) => t && t !== params.hostTeamId)` —
keeps non-empty team ids different from the host team, in order. -/
def invitedTeams (teams : List String) (hostTeamId : String) : List String :=
  teams.filter (fun t => t != "" && t != hostTeamId)

/-- The result object of `createTeamBattle`: `{ ok, url?, error? }`. -/
structure BattleResult where
  ok : Bool
  url : Option String := none
  error : Option String := none
deriving DecidableEq, Repr

/-- The POST request `createTeamBattle` issues in live mode (source lines
88-96): target URL, bearer token, and the form-encoded body pairs. -/
structure ArenaRequest where
  url : String
  token : String
  body : List (String × String)
deriving DecidableEq, Repr

/-- An HTTP response as consumed by `createTeamBattle` (source lines 98-107):
`ok`/`status`, the body as text (read on failure), the parsed JSON `id` field
(if any), and the `Location` header (if any). -/
structure NetResponse where
  ok : Bool
  status : Int
  bodyText : String
  jsonId : Option String
  locationHeader : Option String

/-- Outcome of one `createTeamBattle` call: either a result returned with no
network request attempted, or a request together with the handler that turns
the response (or a thrown network error, `Except.error`) into the result. -/
inductive CallOutcome where
  | noNet (result : BattleResult)
  | net (request : ArenaRequest) (handle : Except String NetResponse → BattleResult)

/-- The form body built in source lines 65-78: the fixed fields plus one
repeated `teams[]` entry per invited team. -/
def buildBody (name description : String) (clockTime clockIncrement minutes : Int)
    (rated : Bool) (variant startDateISO hostTeamId : String)
    (invited : List String) : List (String × String) :=
  [("name", name), ("description", description),
   ("clockTime", toString clockTime), ("clockIncrement", toString clockIncrement),
   ("minutes", toString minutes), ("rated", if rated then "true" else "false"),
   ("variant", variant), ("startDate", startDateISO), ("hostTeamId", hostTeamId)]
    ++ invited.map (fun t => ("teams[]", t))

/-- Parameter object of `createTeamBattle` (source lines 44-57). -/
structure SubmitParams where
  server : String
  token : String
  name : String
  description : String
  clockTime : Int
  clockIncrement : Int
  minutes : Int
  rated : Bool
  variant : String
  startDateISO : String
  hostTeamId : String
  teams : List String
  dryRun : Bool

/-- Model of `createTeamBattle` (source lines 44-113). Order of effects is preserved:
token validation first, then the dry-run shortcut, then the live request with
its response handler (non-2xx → failure with `status: body`; success → URL
from the JSON `id` if truthy, else the `Location` header if truthy, else
`"unknown"`; a thrown fetch error → failure with its string form). -/
def createTeamBattle (p : SubmitParams) : CallOutcome :=
  if invalidToken p.token then
    CallOutcome.noNet { ok := false, error := some authErrorMsg }
  else
    let invited := invitedTeams p.teams p.hostTeamId
    if p.dryRun then
      CallOutcome.noNet
        { ok := true, url := some (p.server ++ "/team/" ++ p.hostTeamId ++ "/arena/pending") }
    else
      CallOutcome.net
        { url := p.server ++ "/api/team/" ++ p.hostTeamId ++ "/arena",
          token := p.token,
          body := buildBody p.name p.description p.clockTime p.clockIncrement
            p.minutes p.rated p.variant p.startDateISO p.hostTeamId invited }
        (fun res =>
          match res with
          | Except.error e => { ok := false, error := some e }
          | Except.ok r =>
            if !r.ok then
              { ok := false, error := some (toString r.status ++ ": " ++ r.bodyText) }
            else
              let fallback := match r.locationHeader with
                | some l => if l != "" then l else "unknown"
                | none => "unknown"
              let url := match r.jsonId with
                | some id => if id != "" then p.server ++ "/tournament/" ++ id else fallback
                | none => fallback
              { ok := true, url := some url })

/-- The ambient network: maps a request to a response, or to a thrown
network-level error (`Except.error`). -/
def Net : Type := ArenaRequest → Except String NetResponse

/-- Run one call outcome against the ambient network. -/
def runCall (net : Net) : CallOutcome → BattleResult
  | CallOutcome.noNet r => r
  | CallOutcome.net req handle => handle (net req)

/-- Hardcoded config of `main` (source lines 124-135): server. -/
def configServer : String := "https://lichess.org"

/-- Hardcoded config of `main`: host team id. -/
def configHostTeamId : String := "lmao-teamfights"

/-- Hardcoded config of `main`: team list (note it includes the host team). -/
def configTeams : List String :=
  ["lmao-teamfights", "darkonteams", "rare", "tekio"]

/-- One submission of the driver loop (source lines 204-218): call
`createTeamBattle` with the hardcoded config, the token, the fields of the
descriptor and the dry-run flag, and run it against the network. -/
def submitOne (net : Net) (token : String) (dryRun : Bool) (t : Descriptor) : BattleResult :=
  runCall net (createTeamBattle
    { server := configServer, token := token, name := t.name,
      description := t.description, clockTime := 3, clockIncrement := 0,
      minutes := 720, rated := true, variant := "standard",
      startDateISO := t.startDateISO, hostTeamId := configHostTeamId,
      teams := configTeams, dryRun := dryRun })

/-- Model of `Math.max(...tournaments.map(t => t.dayNum))` (source line 231), on the
always-nonempty batch (the `[]` case, `-Infinity` in JS, never arises). -/
def maxDayNum (ts : List Descriptor) : Int :=
  match ts.map (fun t => t.dayNum) with
  | [] => 0
  | x :: xs => xs.foldl max x

/-- Observable outcome of one `main` run: the process exit code, the state
write (`some v` iff the state file was rewritten with `lastTournamentDayNum`
`= v`), and the success/failure tallies. -/
structure MainResult where
  exitCode : Nat
  stateWritten : Option Int
  successCount : Nat
  failureCount : Nat
deriving DecidableEq, Repr

/-- Result of the fatal paths of `main` (missing token, or an exception that
reaches the outer catch before any submission): exit 1, nothing written. -/
def fatalResult : MainResult :=
  { exitCode := 1, stateWritten := none, successCount := 0, failureCount := 0 }

/-- The batch of descriptors generated by a run: `nextDayNum` is the counter
read from the state file (default 24 if unreadable, source lines 138-148)
plus one. -/
def runTournaments (stateRead : Option Int) (today : CalDate) : List Descriptor :=
  generateTournaments today (stateRead.getD 24 + 1)

/-- The four battle results of a run (source loop lines 192-227). -/
def runResults (net : Net) (token : String) (dryRun : Bool)
    (stateRead : Option Int) (today : CalDate) : List BattleResult :=
  (runTournaments stateRead today).map (submitOne net token dryRun)

/-- Tally `successCount` after the loop: number of `ok` results (source line 221). -/
def runSuccessCount (net : Net) (token : String) (dryRun : Bool)
    (stateRead : Option Int) (today : CalDate) : Nat :=
  ((runResults net token dryRun stateRead today).filter (fun r => r.ok)).length

/-- Tally `failureCount` after the loop: number of failed results (source line 224). -/
def runFailureCount (net : Net) (token : String) (dryRun : Bool)
    (stateRead : Option Int) (today : CalDate) : Nat :=
  ((runResults net token dryRun stateRead today).filter (fun r => !r.ok)).length

/-- Model of `main` (source lines 115-250) as a function of its environment: the
`OAUTH_TOKEN` variable (`none` = unset; the `!oauthToken` check also
treats the empty string as missing), the dry-run flag, the state read
(`none` = unreadable file, default 24), the current UTC date, the network, and
whether the state-file write throws. After the loop: if `successCount > 0`
the state file is written with the max descriptor `dayNum` (a throwing write
reaches the outer catch: exit 1, nothing persisted); then exit 1 if any
failure, else fall off the end with exit 0. -/
def mainRun (oauthToken : Option String) (dryRun : Bool) (stateRead : Option Int)
    (today : CalDate) (net : Net) (writeThrows : Bool) : MainResult :=
  match oauthToken with
  | none => fatalResult
  | some token =>
    if token == "" then fatalResult
    else
      let tournaments := runTournaments stateRead today
      let successCount := runSuccessCount net token dryRun stateRead today
      let failureCount := runFailureCount net token dryRun stateRead today
      if 0 < successCount then
        if writeThrows then
          { exitCode := 1, stateWritten := none,
            successCount := successCount, failureCount := failureCount }
        else
          { exitCode := if 0 < failureCount then 1 else 0,
            stateWritten := some (maxDayNum tournaments),
            successCount := successCount, failureCount := failureCount }
      else
        { exitCode := if 0 < failureCount then 1 else 0, stateWritten := none,
          successCount := successCount, failureCount := failureCount }

/-- A calendar date that JS date handling, and this model of it, agree on:
month in range, day valid for the month, year in the four-digit range where
`toISOString` uses the plain `YYYY` form (and above the two-digit-year
legacy mapping of `Date.UTC`). -/
def ValidDate (d : CalDate) : Prop :=
  1 ≤ d.month ∧ d.month ≤ 12 ∧ 1 ≤ d.day ∧ d.day ≤ daysInMonth d.year d.month ∧
    100 ≤ d.year ∧ d.year ≤ 9998

instance (d : CalDate) : Decidable (ValidDate d) := by
  unfold ValidDate
  infer_instance

/-- Modelled from the spec (spec §4.1, §8): "compute the calendar date =
today + offset days (must correctly roll over month/year boundaries)" — the
calendar successor of a date, written from the words of the spec, to be compared
with the `normDay` behavior embedded from the source. -/
def specNextCalendarDay (d : CalDate) : CalDate :=
  if d.day < daysInMonth d.year d.month then ⟨d.year, d.month, d.day + 1⟩
  else if d.month < 12 then ⟨d.year, d.month + 1, 1⟩
  else ⟨d.year + 1, 1, 1⟩

/-- The generated batch unfolded: Day then Night for `nextDayNum` on today,
then Day then Night for `nextDayNum + 1` on the following date. -/
theorem generateTournaments_eq (today : CalDate) (n : Int) :
    generateTournaments today n =
      (let d0 := normDay today.year today.month today.day
       let d1 := normDay today.year today.month (today.day + 1)
       [ { name := buildTournamentName n TType.Day,
           description := buildDescription n TType.Day,
           startDateISO := createTournamentDate d0.year d0.month d0.day 6 58,
           dayNum := n, type := TType.Day },
         { name := buildTournamentName n TType.Night,
           description := buildDescription n TType.Night,
           startDateISO := createTournamentDate d0.year d0.month d0.day 18 58,
           dayNum := n, type := TType.Night },
         { name := buildTournamentName (n + 1) TType.Day,
           description := buildDescription (n + 1) TType.Day,
           startDateISO := createTournamentDate d1.year d1.month d1.day 6 58,
           dayNum := n + 1, type := TType.Day },
         { name := buildTournamentName (n + 1) TType.Night,
           description := buildDescription (n + 1) TType.Night,
           startDateISO := createTournamentDate d1.year d1.month d1.day 18 58,
           dayNum := n + 1, type := TType.Night } ]) := by
  simp [generateTournaments, List.range_succ]

/-- The max of the day numbers in the batch is `nextDayNum + 1`. -/
theorem maxDayNum_generate (today : CalDate) (n : Int) :
    maxDayNum (generateTournaments today n) = n + 1 := by
  rw [generateTournaments_eq]
  simp [maxDayNum]

/-- C1: for every starting counter value `S` (so `nextDayNum = S + 1`), the
generated batch is exactly 4 descriptors whose (sequence number, slot) pairs
are, in emission order, `(S+1, Day), (S+1, Night), (S+2, Day), (S+2, Night)`:
two descriptors per sequence number `S+1` and `S+2`, one Day and one Night
each, Day before Night, `S+1` before `S+2`. -/
theorem batch_seq_numbers (today : CalDate) (S : Int) :
    (generateTournaments today (S + 1)).map (fun d => (d.dayNum, d.type)) =
      [(S + 1, TType.Day), (S + 1, TType.Night), (S + 2, TType.Day), (S + 2, TType.Night)] := by
  rw [generateTournaments_eq]
  simp
  omega

/-- C4: a token that is empty, or contains `YOUR_TOKEN`, or contains `***`,
makes `createTeamBattle` return an immediate failure carrying the
authentication error message, with no network request attempted
(the `noNet` outcome). -/
theorem invalid_token_rejected (p : SubmitParams)
    (h : p.token = "" ∨ includesSubstr p.token "YOUR_TOKEN" = true ∨
      includesSubstr p.token "***" = true) :
    createTeamBattle p =
      CallOutcome.noNet { ok := false, url := none, error := some authErrorMsg } := by
  have hv : invalidToken p.token = true := by
    unfold invalidToken
    rcases h with h | h | h <;> simp [h]
  unfold createTeamBattle
  simp [hv]

/-- Concrete parameters with an empty token (live mode). -/
def pEmptyTok : SubmitParams :=
  { server := "https://lichess.org", token := "", name := "n", description := "d",
    clockTime := 3, clockIncrement := 0, minutes := 720, rated := true,
    variant := "standard", startDateISO := "2024-05-10T06:58:00.000Z",
    hostTeamId := "lmao-teamfights", teams := configTeams, dryRun := false }

/-- Witness for C4 at the empty token. -/
theorem invalid_token_rejected_witness :
    (pEmptyTok.token = "" ∨ includesSubstr pEmptyTok.token "YOUR_TOKEN" = true ∨
      includesSubstr pEmptyTok.token "***" = true) ∧
    createTeamBattle pEmptyTok =
      CallOutcome.noNet { ok := false, url := none, error := some authErrorMsg } :=
  ⟨Or.inl rfl, invalid_token_rejected pEmptyTok (Or.inl rfl)⟩

/-- C9: the token validity check runs before the dry-run branch, so an
invalid token (empty, whitespace-only, or containing a placeholder marker)
yields a failure result even when `dryRun` is set. -/
theorem token_check_precedes_dryRun (p : SubmitParams)
    (_hd : p.dryRun = true)
    (h : p.token = "" ∨ strTrim p.token = "" ∨ includesSubstr p.token "***" = true ∨
      includesSubstr p.token "YOUR_TOKEN" = true) :
    createTeamBattle p =
      CallOutcome.noNet { ok := false, url := none, error := some authErrorMsg } := by
  have hv : invalidToken p.token = true := by
    unfold invalidToken
    rcases h with h | h | h | h <;> simp [h]
  unfold createTeamBattle
  simp [hv]

/-- Concrete dry-run parameters with a whitespace-only token. -/
def pDryBlankTok : SubmitParams :=
  { server := "https://lichess.org", token := "   ", name := "n", description := "d",
    clockTime := 3, clockIncrement := 0, minutes := 720, rated := true,
    variant := "standard", startDateISO := "2024-05-10T06:58:00.000Z",
    hostTeamId := "lmao-teamfights", teams := configTeams, dryRun := true }

/-- Witness for C9: a whitespace-only token fails even in dry-run mode. -/
theorem token_check_precedes_dryRun_witness :
    pDryBlankTok.dryRun = true ∧ strTrim pDryBlankTok.token = "" ∧
    createTeamBattle pDryBlankTok =
      CallOutcome.noNet { ok := false, url := none, error := some authErrorMsg } :=
  ⟨rfl, rfl, token_check_precedes_dryRun pDryBlankTok rfl (Or.inr (Or.inl rfl))⟩

/-- Concrete dry-run parameters with an invalid (empty) token. -/
def pDryEmptyTok : SubmitParams :=
  { server := "https://lichess.org", token := "", name := "n", description := "d",
    clockTime := 3, clockIncrement := 0, minutes := 720, rated := true,
    variant := "standard", startDateISO := "2024-05-10T06:58:00.000Z",
    hostTeamId := "lmao-teamfights", teams := configTeams, dryRun := true }

/-- Counterexample to C5 as stated: this call has `dryRun` set, yet it
returns a failure result (the token check fires first), not a success with
the pending-arena URL. -/
theorem dryrun_not_always_success_cex :
    pDryEmptyTok.dryRun = true ∧
    createTeamBattle pDryEmptyTok =
      CallOutcome.noNet { ok := false, url := none, error := some authErrorMsg } :=
  ⟨rfl, rfl⟩

/-- C5 (amended): for every call with `dryRun` set whose token passes the
validity check, no network call occurs and the result is a success whose URL
is exactly `{server}/team/{hostTeamId}/arena/pending`. -/
theorem dryrun_valid_token_success (p : SubmitParams)
    (hd : p.dryRun = true) (ht : invalidToken p.token = false) :
    createTeamBattle p =
      CallOutcome.noNet
        { ok := true,
          url := some (p.server ++ "/team/" ++ p.hostTeamId ++ "/arena/pending"),
          error := none } := by
  unfold createTeamBattle
  simp [ht, hd]

/-- Concrete dry-run parameters with a valid token. -/
def pDryValidTok : SubmitParams :=
  { server := "https://lichess.org", token := "abc123", name := "n", description := "d",
    clockTime := 3, clockIncrement := 0, minutes := 720, rated := true,
    variant := "standard", startDateISO := "2024-05-10T06:58:00.000Z",
    hostTeamId := "lmao-teamfights", teams := configTeams, dryRun := true }

/-- Witness for the amended C5 at a valid token. -/
theorem dryrun_valid_token_success_witness :
    pDryValidTok.dryRun = true ∧ invalidToken pDryValidTok.token = false ∧
    createTeamBattle pDryValidTok =
      CallOutcome.noNet
        { ok := true,
          url := some "https://lichess.org/team/lmao-teamfights/arena/pending",
          error := none } :=
  ⟨rfl, rfl, by rw [dryrun_valid_token_success pDryValidTok rfl rfl]; rfl⟩

/-- Counterexample to C6 as stated: the configured list
`["lmao-teamfights", "darkonteams", "darkonteams"]` with host
`"lmao-teamfights"` produces an invite list in which `"darkonteams"`
appears twice — the filter excludes the host but does not deduplicate. -/
theorem invited_teams_dedup_cex :
    (invitedTeams ["lmao-teamfights", "darkonteams", "darkonteams"]
      "lmao-teamfights").count "darkonteams" = 2 := by
  decide

/-- C6 (amended): the invite list never contains the host team id and is a
sublist of the configured list (so the relative order of the remaining teams
is preserved); a team id is invited iff it occurs in the configured list, is
non-empty, and differs from the host id. Duplicates in the configured list
are kept (no deduplication). -/
theorem invited_teams_props (teams : List String) (host : String) :
    host ∉ invitedTeams teams host ∧
      (invitedTeams teams host).Sublist teams ∧
      ∀ t, t ∈ invitedTeams teams host ↔ (t ∈ teams ∧ t ≠ "" ∧ t ≠ host) := by
  refine ⟨?_, List.filter_sublist _, ?_⟩
  · simp [invitedTeams, List.mem_filter]
  · intro t
    simp [invitedTeams, List.mem_filter, and_assoc]

/-- On a valid date, `new Date(y, m-1, d)` does not renormalize. -/
theorem normDay_self (d : CalDate) (h : ValidDate d) :
    normDay d.year d.month d.day = d := by
  obtain ⟨h1, h2, h3, h4, h5, h6⟩ := h
  unfold normDay
  have hle : ¬ d.day > daysInMonth d.year d.month := by omega
  rw [if_neg hle]

/-- On a valid date, `new Date(y, m-1, d+1)` normalizes to the calendar
successor defined by the spec, rolling over month and year boundaries. -/
theorem normDay_succ (d : CalDate) (h : ValidDate d) :
    normDay d.year d.month (d.day + 1) = specNextCalendarDay d := by
  obtain ⟨h1, h2, h3, h4, h5, h6⟩ := h
  unfold normDay specNextCalendarDay
  split_ifs with p1 p2 p3 p4 p5 p6 p7 <;>
    simp [CalDate.mk.injEq] <;> omega

/-- Applying `createTournamentDate` at hour 6, minute 58 renders the date followed by
the literal `T06:58:00.000Z`. -/
theorem createTournamentDate_day (c : CalDate) :
    createTournamentDate c.year c.month c.day 6 58 = dateStr c ++ "T06:58:00.000Z" := by
  apply String.ext
  simp [createTournamentDate, pad2]
  decide

/-- Applying `createTournamentDate` at hour 18, minute 58 renders the date followed by
the literal `T18:58:00.000Z`. -/
theorem createTournamentDate_night (c : CalDate) :
    createTournamentDate c.year c.month c.day 18 58 = dateStr c ++ "T18:58:00.000Z" := by
  apply String.ext
  simp [createTournamentDate, pad2]
  decide

/-- C7: for every valid current UTC date, the start timestamps of the batch
are, in order, 06:58:00.000 UTC and 18:58:00.000 UTC on that date, then
06:58:00.000 UTC and 18:58:00.000 UTC on the calendar day after today,
where "calendar day after" rolls over month and year boundaries per the
calendar-successor definition of the spec. -/
theorem schedule_start_times (today : CalDate) (S : Int) (h : ValidDate today) :
    (generateTournaments today S).map (fun d => d.startDateISO) =
      [ dateStr today ++ "T06:58:00.000Z",
        dateStr today ++ "T18:58:00.000Z",
        dateStr (specNextCalendarDay today) ++ "T06:58:00.000Z",
        dateStr (specNextCalendarDay today) ++ "T18:58:00.000Z" ] := by
  rw [generateTournaments_eq]
  simp only [normDay_self today h, normDay_succ today h, List.map_cons, List.map_nil]
  rw [createTournamentDate_day, createTournamentDate_night,
    createTournamentDate_day, createTournamentDate_night]

/-- Witness for C7 at two rollover dates: 2024-02-29 (leap-day month end)
is followed by 2024-03-01, and 2024-12-31 by 2025-01-01. -/
theorem schedule_start_times_witness :
    (ValidDate ⟨2024, 2, 29⟩ ∧
      (generateTournaments ⟨2024, 2, 29⟩ 25).map (fun d => d.startDateISO) =
        [ "2024-02-29T06:58:00.000Z", "2024-02-29T18:58:00.000Z",
          "2024-03-01T06:58:00.000Z", "2024-03-01T18:58:00.000Z" ]) ∧
    (ValidDate ⟨2024, 12, 31⟩ ∧
      (generateTournaments ⟨2024, 12, 31⟩ 25).map (fun d => d.startDateISO) =
        [ "2024-12-31T06:58:00.000Z", "2024-12-31T18:58:00.000Z",
          "2025-01-01T06:58:00.000Z", "2025-01-01T18:58:00.000Z" ]) := by
  constructor
  · refine ⟨by decide, ?_⟩
    have := schedule_start_times ⟨2024, 2, 29⟩ 25 (by decide)
    rw [this]
    rfl
  · refine ⟨by decide, ?_⟩
    have := schedule_start_times ⟨2024, 12, 31⟩ 25 (by decide)
    rw [this]
    rfl

/-- With a present, non-empty token, the run success tally is the loop tally. -/
theorem mainRun_successCount (token : String) (ht : token ≠ "") (dryRun : Bool)
    (st : Option Int) (today : CalDate) (net : Net) (wt : Bool) :
    (mainRun (some token) dryRun st today net wt).successCount =
      runSuccessCount net token dryRun st today := by
  have hb : (token == "") = false := by simpa using ht
  unfold mainRun
  simp only [hb, Bool.false_eq_true, if_false]
  split_ifs <;> rfl

/-- With a present, non-empty token, the run failure tally is the loop tally. -/
theorem mainRun_failureCount (token : String) (ht : token ≠ "") (dryRun : Bool)
    (st : Option Int) (today : CalDate) (net : Net) (wt : Bool) :
    (mainRun (some token) dryRun st today net wt).failureCount =
      runFailureCount net token dryRun st today := by
  have hb : (token == "") = false := by simpa using ht
  unfold mainRun
  simp only [hb, Bool.false_eq_true, if_false]
  split_ifs <;> rfl

/-- With a present, non-empty token and a non-throwing write, the exit code
is 1 exactly when some submission failed, else 0. -/
theorem mainRun_exitCode (token : String) (ht : token ≠ "") (dryRun : Bool)
    (st : Option Int) (today : CalDate) (net : Net) :
    (mainRun (some token) dryRun st today net false).exitCode =
      if 0 < runFailureCount net token dryRun st today then 1 else 0 := by
  have hb : (token == "") = false := by simpa using ht
  unfold mainRun
  simp only [hb, Bool.false_eq_true, if_false]
  split_ifs <;> rfl

/-- With a present, non-empty token, a successful batch and a non-throwing
write, the state file is written with the max day number of the batch. -/
theorem mainRun_stateWritten_pos (token : String) (ht : token ≠ "") (dryRun : Bool)
    (st : Option Int) (today : CalDate) (net : Net)
    (hs : 0 < runSuccessCount net token dryRun st today) :
    (mainRun (some token) dryRun st today net false).stateWritten =
      some (maxDayNum (runTournaments st today)) := by
  have hb : (token == "") = false := by simpa using ht
  unfold mainRun
  simp [hb, hs]

/-- C2: in any run with at least one successful submission (and a state
write that does not throw), the persisted `lastTournamentDayNum` equals the
maximum sequence number among the 4 attempted descriptors of the run, which is
the old counter `S` plus 2 — regardless of which or how many of the 4
submissions succeeded. -/
theorem state_written_is_max (token : String) (dryRun : Bool) (S : Int)
    (today : CalDate) (net : Net)
    (h : 0 < (mainRun (some token) dryRun (some S) today net false).successCount) :
    (mainRun (some token) dryRun (some S) today net false).stateWritten =
      some (maxDayNum (runTournaments (some S) today)) ∧
    maxDayNum (runTournaments (some S) today) = S + 2 := by
  have hmax : maxDayNum (runTournaments (some S) today) = S + 2 := by
    unfold runTournaments
    rw [maxDayNum_generate]
    simp
    omega
  by_cases ht : token = ""
  · exfalso
    subst ht
    simp [mainRun, fatalResult] at h
  · have hs : 0 < runSuccessCount net token dryRun (some S) today := by
      rwa [mainRun_successCount token ht dryRun (some S) today net false] at h
    exact ⟨mainRun_stateWritten_pos token ht dryRun (some S) today net hs, hmax⟩

/-- A network that always throws (models the remote being unreachable). -/
def downNet : Net := fun _ => Except.error "fetch failed"

/-- A date used for concrete runs. -/
def sampleDay : CalDate := ⟨2024, 5, 10⟩

/-- Witness for C2: a dry run (all 4 submissions succeed) starting from
counter 24 persists 26 = 24 + 2. -/
theorem state_written_is_max_witness :
    0 < (mainRun (some "abc123") true (some 24) sampleDay downNet false).successCount ∧
    ((mainRun (some "abc123") true (some 24) sampleDay downNet false).stateWritten =
        some (maxDayNum (runTournaments (some 24) sampleDay)) ∧
      maxDayNum (runTournaments (some 24) sampleDay) = 24 + 2) :=
  ⟨by decide, state_written_is_max "abc123" true 24 sampleDay downNet (by decide)⟩

/-- Counterexample to C3 as stated: a run in which all 4 submissions
succeed (failure count 0) but the state write throws exits with status 1,
so a non-zero exit does not imply a failed submission. -/
theorem exit_code_iff_failure_cex :
    (mainRun (some "abc123") true (some 24) sampleDay downNet true).failureCount = 0 ∧
    (mainRun (some "abc123") true (some 24) sampleDay downNet true).exitCode = 1 := by
  constructor <;> decide

/-- C3 (amended): provided the token is present and non-empty and the state
write does not throw, the exit status is non-zero iff at least one of the 4
submissions failed. -/
theorem exit_code_iff_failure (token : String) (ht : token ≠ "") (dryRun : Bool)
    (st : Option Int) (today : CalDate) (net : Net) :
    (mainRun (some token) dryRun st today net false).exitCode ≠ 0 ↔
      0 < (mainRun (some token) dryRun st today net false).failureCount := by
  rw [mainRun_exitCode token ht dryRun st today net,
    mainRun_failureCount token ht dryRun st today net false]
  split_ifs with hf <;> simp [hf]

/-- Witness for the amended C3: a fully successful dry run exits 0 with no
failures (both sides of the equivalence false). -/
theorem exit_code_iff_failure_witness :
    "abc123" ≠ "" ∧
    ((mainRun (some "abc123") true (some 24) sampleDay downNet false).exitCode ≠ 0 ↔
      0 < (mainRun (some "abc123") true (some 24) sampleDay downNet false).failureCount) :=
  ⟨by decide, exit_code_iff_failure "abc123" (by decide) true (some 24) sampleDay downNet⟩

/-- C8: after a run in which none of the submissions succeeded, the state
file is not written (left unchanged), whether or not a write would throw. -/
theorem zero_success_no_write (token : String) (dryRun : Bool) (st : Option Int)
    (today : CalDate) (net : Net) (wt : Bool)
    (h : (mainRun (some token) dryRun st today net wt).successCount = 0) :
    (mainRun (some token) dryRun st today net wt).stateWritten = none := by
  by_cases ht : token = ""
  · subst ht
    rfl
  · have hb : (token == "") = false := by simpa using ht
    have hs : runSuccessCount net token dryRun st today = 0 := by
      rwa [mainRun_successCount token ht dryRun st today net wt] at h
    unfold mainRun
    simp [hb, hs]

/-- Witness for C8: with the network down and a valid token in live mode,
all 4 submissions fail; nothing is written. -/
theorem zero_success_no_write_witness :
    (mainRun (some "abc123") false (some 24) sampleDay downNet false).successCount = 0 ∧
    (mainRun (some "abc123") false (some 24) sampleDay downNet false).stateWritten = none :=
  ⟨by decide, zero_success_no_write "abc123" false (some 24) sampleDay downNet false (by decide)⟩

/-- C10: if the state write performed after at least one successful
submission throws, the top-level handler catches it and the process exits
with status 1 — even when every submission succeeded. -/
theorem write_throw_exits_one (token : String) (dryRun : Bool) (st : Option Int)
    (today : CalDate) (net : Net)
    (h : 0 < (mainRun (some token) dryRun st today net true).successCount) :
    (mainRun (some token) dryRun st today net true).exitCode = 1 := by
  by_cases ht : token = ""
  · subst ht
    rfl
  · have hb : (token == "") = false := by simpa using ht
    have hs : 0 < runSuccessCount net token dryRun st today := by
      rwa [mainRun_successCount token ht dryRun st today net true] at h
    unfold mainRun
    simp [hb, hs]

/-- Witness for C10: a fully successful dry run (4 successes, 0 failures)
with a throwing state write exits 1. -/
theorem write_throw_exits_one_witness :
    0 < (mainRun (some "abc123") true (some 24) sampleDay downNet true).successCount ∧
    (mainRun (some "abc123") true (some 24) sampleDay downNet true).failureCount = 0 ∧
    (mainRun (some "abc123") true (some 24) sampleDay downNet true).exitCode = 1 :=
  ⟨by decide, by decide,
    write_throw_exits_one "abc123" true (some 24) sampleDay downNet (by decide)⟩

end BattleMaker
